import Mathlib

/-!
# Verification of the girlbot turn-coordination engine

A shallow embedding, in Lean 4, of the turn-coordination core of the
`kaivdev/girlbot` repository: the anti-spam gate (`app/bot/services/anti_spam.py`),
history soft-trimming (`app/bot/services/history.py`), the debounce buffer and the
turn processor `process_user_text` (`app/bot/services/reply_flow.py`), the proactive
sweep (`app/bot/services/proactive.py`), the task queue (`app/db/task_queue.py` plus
the unique `dedup_key` constraint of migration `0012_add_tasks_queue.py`), and the
upstream request schema (`app/bot/schemas/n8n_io.py`).

Modelling conventions:
* Timestamps are integers counting microseconds (the resolution of Python's
  `datetime`); `Int` abbreviates `Int`.  `datetime` arithmetic on differences
  (`total_seconds()`, `int(...)` truncation) is carried out exactly on integers.
* Every `utcnow()` call after the first one in `process_user_text` is modelled by
  the single oracle value `TurnEnv.later`; no claim below observes two distinct
  "later" readings, and no relation between `later` and `now` is assumed.
* Database reads (history rows, abuse-event counts, last-event lookups) and random
  draws are oracle fields of the environment records; writes (`session.add`,
  attribute assignment) are accumulated explicitly in the returned result records.
* JSON dictionaries (`meta`, media payloads, event payloads) are modelled by
  records with the fields the embedded code actually reads or writes.
-/

namespace Girlbot

/- Timestamps and durations are plain `Int`s counting microseconds (UTC). -/

def usPerSecond : Int := 1000000

def usPerMinute : Int := 60 * usPerSecond

def usPerHour : Int := 60 * usPerMinute

def usPerDay : Int := 24 * usPerHour

/-- Python `int(x)` on the exact rational `us / 10^6`: truncation toward zero. -/
def pyIntOfSeconds (us : Int) : Int := Int.tdiv us usPerSecond

/-! ### Executable string helpers

Python string methods, implemented by structural recursion over the character
list (the core library's `String.trim`, `String.toLower`, `String.splitOn`,
`String.startsWith` and `String.toInt?` are equivalent on the inputs at hand but
are opaque to kernel reduction). -/

def stripChars (l : List Char) : List Char :=
  ((l.dropWhile Char.isWhitespace).reverse.dropWhile Char.isWhitespace).reverse

/-- `s.strip()`. -/
def pyStrip (s : String) : String := String.mk (stripChars s.data)

/-- `s.lower()` (ASCII letters; every keyword and input examined below is
already lowercase, where `str.lower` agrees). -/
def pyLower (s : String) : String := String.mk (s.data.map Char.toLower)

/-- `s.startswith(p)`. -/
def pyStartsWith (s p : String) : Bool := p.data.isPrefixOf s.data

def pySplitOnCharAux (sep : Char) : List Char → List (List Char)
  | [] => [[]]
  | c :: rest =>
    let r := pySplitOnCharAux sep rest
    if c = sep then [] :: r
    else
      match r with
      | h :: t => (c :: h) :: t
      | [] => [[c]]

/-- `s.split(sep)` for a one-character separator. -/
def pySplitOnChar (sep : Char) (s : String) : List String :=
  (pySplitOnCharAux sep s.data).map String.mk

def digitVal (c : Char) : Option Nat :=
  if '0' ≤ c ∧ c ≤ '9' then some (c.toNat - '0'.toNat) else none

def digitsToNat : List Char → Option Nat
  | [] => none
  | ds => ds.foldl (fun acc c =>
      match acc, digitVal c with
      | some n, some d => some (n * 10 + d)
      | _, _ => none) (some 0)

/-- `int(s)`: optional surrounding whitespace, optional sign, decimal digits. -/
def pyToInt (s : String) : Option Int :=
  match stripChars s.data with
  | '+' :: ds => (digitsToNat ds).map Int.ofNat
  | '-' :: ds => (digitsToNat ds).map (fun n => -(Int.ofNat n))
  | ds => (digitsToNat ds).map Int.ofNat

/-! ## `app/bot/services/anti_spam.py` -/

/-- `remaining_wait_seconds(last_user_msg_at, now, min_gap_seconds)`:
`0` when `last_user_msg_at` is `None`, otherwise `max(0, min_gap - int(diff))`
where `diff = (now - last_user_msg_at).total_seconds()`. -/
def remaining_wait_seconds (last_user_msg_at : Option Int) (now : Int)
    (min_gap_seconds : Int) : Int :=
  match last_user_msg_at with
  | none => 0
  | some t => max 0 (min_gap_seconds - pyIntOfSeconds (now - t))

/-- `is_allowed(last_user_msg_at, now, min_gap_seconds)`. -/
def is_allowed (last_user_msg_at : Option Int) (now : Int)
    (min_gap_seconds : Int) : Bool :=
  remaining_wait_seconds last_user_msg_at now min_gap_seconds == 0

/-! ## Local-time helpers shared by `reply_flow.py` and `proactive.py` -/

/-- `_parse_window("HH:MM-HH:MM")` from `reply_flow.py` / `proactive.py`: split on
`-` and `:`, convert with `int(...)`; any failure yields `None`.  (Both copies in
the source behave identically on their inputs.) -/
def parseWindow (win : Option String) : Option (Int × Int) :=
  match win with
  | none => none
  | some w =>
    if w = "" then none
    else
      match pySplitOnChar '-' w with
      | [a, b] =>
        match pySplitOnChar ':' a, pySplitOnChar ':' b with
        | [h1, m1], [h2, m2] =>
          match pyToInt h1, pyToInt m1, pyToInt h2, pyToInt m2 with
          | some x1, some y1, some x2, some y2 => some (x1 * 60 + y1, x2 * 60 + y2)
          | _, _, _, _ => none
        | _, _ => none
      | _ => none

/-- `_in_window(minute_of_day, w)`: window membership with overnight support. -/
def inWindow (minute_of_day : Int) (w : Option (Int × Int)) : Bool :=
  match w with
  | none => false
  | some (s, e) =>
    if s = e then true
    else if s < e then decide (s ≤ minute_of_day ∧ minute_of_day < e)
    else decide (minute_of_day ≥ s ∨ minute_of_day < e)

/-- `local_now.hour * 60 + local_now.minute` for a timestamp in microseconds. -/
def minuteOfDay (localTs : Int) : Int :=
  Int.ediv (Int.emod localTs usPerDay) usPerMinute

/-- Midnight of the (local) day containing `localTs` — what
`local_now.replace(hour=h, minute=m, second=0, microsecond=0)` is computed from. -/
def dayStart (localTs : Int) : Int := localTs - Int.emod localTs usPerDay

/-- `a.date() == b.date()` on UTC timestamps (`_same_utc_day`, with `a` present). -/
def sameUtcDay (a : Option Int) (b : Int) : Bool :=
  match a with
  | none => false
  | some t => Int.ediv t usPerDay == Int.ediv b usPerDay

/-! ## `app/utils/time.py` -/

/-- `jitter_seconds(min_seconds, max_seconds)`: swap an inverted range, then a
uniform integer in `[lo, hi]`; the random draw is an oracle `Nat` reduced modulo
the range size, so the result is always in range. -/
def jitter_seconds (min_seconds max_seconds : Int) (draw : Nat) : Int :=
  let p := if min_seconds > max_seconds then (max_seconds, min_seconds)
           else (min_seconds, max_seconds)
  p.1 + Int.ofNat (draw % (p.2 - p.1 + 1).toNat)

/-- `future_with_jitter(lo, hi, base)` in microseconds. -/
def future_with_jitter (min_seconds max_seconds : Int) (base : Int)
    (draw : Nat) : Int :=
  base + jitter_seconds min_seconds max_seconds draw * usPerSecond

/-! ## `app/bot/schemas/n8n_io.py` -/

/-- The media metadata dictionary the handlers attach to a turn (the keys built in
`handlers/messages.py` / the userbot); `duration` is in whole seconds, as Telegram
reports it. -/
structure Media where
  origin : Option String := none
  image_url : Option String := none
  image_file_id : Option String := none
  image_mime_type : Option String := none
  width : Option Int := none
  height : Option Int := none
  audio_url : Option String := none
  voice_file_id : Option String := none
  mime_type : Option String := none
  duration : Option Int := none
deriving DecidableEq, Repr

/-- The `origin` values admitted by `MessageIn`'s
`Optional[Literal["text", "voice", "audio"]]` annotation. -/
def messageInOriginLiteral : List String := ["text", "voice", "audio"]

/-- The validated `MessageIn` payload (extra keys are allowed by
`model_config.extra = "allow"` and carried through unchanged). -/
structure MessageIn where
  text : Option String := none
  origin : Option String := none
  audio_url : Option String := none
  voice_file_id : Option String := none
  mime_type : Option String := none
  duration : Option Int := none
  image_url : Option String := none
  image_file_id : Option String := none
  image_mime_type : Option String := none
  width : Option Int := none
  height : Option Int := none
deriving DecidableEq, Repr

/-- Python exceptions that the embedded code can raise. -/
inductive PyErr where
  /-- `N8NServerError` (status 5xx). -/
  | n8nServer (status : Int)
  /-- `N8NClientError` (status 4xx). -/
  | n8nClient (status : Int)
  /-- Any other failure of `call_n8n` (network, empty body, bad JSON). -/
  | n8nOther
  /-- A pydantic `ValidationError`. -/
  | validationFailure
  /-- `UnboundLocalError` for the named local variable. -/
  | unboundLocal (name : String)
deriving DecidableEq, Repr

instance {ε α : Type} [DecidableEq ε] [DecidableEq α] : DecidableEq (Except ε α) :=
  fun a b =>
  match a, b with
  | .ok x, .ok y =>
    if h : x = y then .isTrue (h ▸ rfl) else .isFalse (fun hc => h (Except.ok.inj hc))
  | .error x, .error y =>
    if h : x = y then .isTrue (h ▸ rfl) else .isFalse (fun hc => h (Except.error.inj hc))
  | .ok _, .error _ => .isFalse (fun hc => Except.noConfusion hc)
  | .error _, .ok _ => .isFalse (fun hc => Except.noConfusion hc)

/-- `MessageIn.model_validate(msg_payload)` where `msg_payload = {"text": trimmed}`
updated with the media dict: the declared `origin` field must match its `Literal`
annotation; all other keys the handlers produce are either declared with matching
types or accepted as extras. -/
def messageInValidate (text : Option String) (media : Option Media) :
    Except PyErr MessageIn :=
  let origin := media.bind (·.origin)
  match origin with
  | some o =>
    if messageInOriginLiteral.contains o then
      .ok { text := text, origin := some o
            audio_url := media.bind (·.audio_url)
            voice_file_id := media.bind (·.voice_file_id)
            mime_type := media.bind (·.mime_type)
            duration := media.bind (·.duration)
            image_url := media.bind (·.image_url)
            image_file_id := media.bind (·.image_file_id)
            image_mime_type := media.bind (·.image_mime_type)
            width := media.bind (·.width)
            height := media.bind (·.height) }
    else .error .validationFailure
  | none =>
    .ok { text := text
          audio_url := media.bind (·.audio_url)
          voice_file_id := media.bind (·.voice_file_id)
          mime_type := media.bind (·.mime_type)
          duration := media.bind (·.duration)
          image_url := media.bind (·.image_url)
          image_file_id := media.bind (·.image_file_id)
          image_mime_type := media.bind (·.image_mime_type)
          width := media.bind (·.width)
          height := media.bind (·.height) }

/-- One history item of the upstream context (`HistoryItem`). -/
structure HistoryItem where
  role : String
  text : String
  created_at : Int
deriving DecidableEq, Repr

/-- A parsed upstream response: `{reply, meta}` with the `meta` fields
`reply_flow.py` reads (`extra = "allow"` fields it does not read are omitted). -/
structure N8nFlags where
  abuse : Option Bool := none
  mute_hours : Option Int := none
deriving DecidableEq, Repr

structure N8nMeta where
  abuse : Option Bool := none
  mute_hours : Option Int := none
  severity : Option String := none
  flags : Option N8nFlags := none
  persona : Option String := none
  intent : Option String := none
deriving DecidableEq, Repr

structure N8nResponse where
  reply : String
  meta : N8nMeta := {}
deriving DecidableEq, Repr

/-! ## `app/bot/services/history.py` -/

/-- Python truthiness of an optional string (`None` and `""` are falsy). -/
def pyTruthyOptStr : Option String → Bool
  | none => false
  | some s => s ≠ ""

/-- One row of the `messages` table as the history query returns it. -/
structure UserRow where
  text : String
  created_at : Int
deriving DecidableEq, Repr

/-- One row of the `assistant_messages` table as the history query returns it;
`metaPersona = none` models a `meta_json` without a `"persona"` key. -/
structure AssistantRowDb where
  text : String
  created_at : Int
  metaPersona : Option String := none
deriving DecidableEq, Repr

/-- The persona filter on assistant rows: a row is skipped iff `persona` is
truthy, the row's meta has a `"persona"` key, and the values differ. -/
def personaKept (persona : Option String) (metaPersona : Option String) : Bool :=
  !(pyTruthyOptStr persona && metaPersona.isSome && decide (metaPersona ≠ persona))

/-- Python `combined[-n:]` (note `combined[-0:]` is the whole list). -/
def pySliceLast {α : Type} (n : Nat) (l : List α) : List α :=
  if n = 0 then l else l.drop (l.length - n)

/-- Drop consecutive items with identical `(role, text)`, keeping the first of
each run (the `deduped` loop of `fetch_recent_history`). -/
def dedupConsecutive : List HistoryItem → List HistoryItem
  | [] => []
  | [a] => [a]
  | a :: b :: rest =>
    if a.role = b.role ∧ a.text = b.text then dedupConsecutive (a :: rest)
    else a :: dedupConsecutive (b :: rest)
termination_by l => l.length

def textLens (items : List HistoryItem) : List Nat := items.map (·.text.length)

def totalChars (items : List HistoryItem) : Nat := (textLens items).sum

/-- The `while head_idx < len(items) and acc < limit` loop: how many leading
lengths get consumed before the accumulator reaches `limit`. -/
def headSteps (limit : Nat) : Nat → List Nat → Nat
  | _, [] => 0
  | acc, l :: ls => if acc < limit then headSteps limit (acc + l) ls + 1 else 0

/-- The soft character trimming step of `fetch_recent_history` (lines 73-94):
when the total text length exceeds the limit and there are more than two items,
keep the head slice and the tail slice computed by the two accumulator loops,
returning the list unchanged when they would overlap. -/
def softTrim : Option Nat → Nat → Nat → List HistoryItem → List HistoryItem
  | none, _, _, items => items
  | some lim, soft_head, soft_tail, items =>
    if 0 < lim ∧ lim < totalChars items ∧ 2 < items.length then
      let h := headSteps soft_head 0 (textLens items)
      let t := headSteps soft_tail 0 (textLens items).reverse
      if (items.length : Int) - 1 - (t : Int) < (h : Int) then items
      else items.take h ++ items.drop (items.length - t)
    else items

/-- Ascending order on history items (the `key=lambda x: x[2]` sort key). -/
def histLe (a b : HistoryItem) : Prop := a.created_at ≤ b.created_at

instance : DecidableRel histLe := fun a b => Int.decLe a.created_at b.created_at

instance : IsTotal HistoryItem histLe := ⟨fun a b => Int.le_total a.created_at b.created_at⟩

instance : IsTrans HistoryItem histLe := ⟨fun _ _ _ hab hbc => le_trans hab hbc⟩

/-- `fetch_recent_history` from the two query results onward: tag and merge the
rows (with the persona filter), sort ascending by `created_at`, keep the last
`2 * limit_pairs` items, de-duplicate consecutive `(role, text)` runs, then apply
the soft character trimming.  (`List.insertionSort` models the stable ascending
`combined.sort(key=lambda x: x[2])`.) -/
def fetch_recent_history (limit_pairs : Nat) (persona : Option String)
    (soft_char_limit : Option Nat) (soft_head soft_tail : Nat)
    (user_rows : List UserRow) (assistant_rows : List AssistantRowDb) :
    List HistoryItem :=
  let combined : List HistoryItem :=
    user_rows.map (fun r => ⟨"user", r.text, r.created_at⟩) ++
      (assistant_rows.filter (fun r => personaKept persona r.metaPersona)).map
        (fun r => ⟨"assistant", r.text, r.created_at⟩)
  let sorted := combined.insertionSort histLe
  let sliced := pySliceLast (limit_pairs * 2) sorted
  softTrim soft_char_limit soft_head soft_tail (dedupConsecutive sliced)

/-! ## `app/bot/services/n8n_client.py` (failure classification)

The exception classes `N8NServerError` / `N8NClientError` are imported by
`reply_flow.py` from `n8n_client.py`, but their definitions (and the conversion
from `httpx` status errors) are not present under `src/`. -/

/-- Failure classes of `call_n8n` as seen by its callers. -/
inductive N8nFail where
  | server (status : Int)
  | client (status : Int)
  | otherErr
deriving DecidableEq, Repr

/-- The raw outcome of the HTTP POST inside `call_n8n`. -/
inductive HttpOutcome where
  /-- 2xx with a parsed, validated body. -/
  | ok (resp : N8nResponse)
  /-- `raise_for_status()` fired with this HTTP status code. -/
  | status (code : Int)
  /-- Network failure, empty body, or malformed JSON. -/
  | network
deriving DecidableEq, Repr

/-- Modelled from the spec: the definitions of `N8NServerError` / `N8NClientError`
and the mapping from HTTP status codes to them inside `call_n8n` are missing from
`src/` (only the `import` in `reply_flow.py` and the `except` clauses remain).
Per the spec: status 5xx → ServerError (retryable), 4xx → ClientError (not
retryable), network/JSON failures → OtherError. -/
def classifyStatus (code : Int) : N8nFail :=
  if 500 ≤ code ∧ code < 600 then .server code
  else if 400 ≤ code ∧ code < 500 then .client code
  else .otherErr

/-- `call_n8n` as its callers observe it: a parsed response or a classified
failure. -/
def call_n8n (o : HttpOutcome) : Except N8nFail N8nResponse :=
  match o with
  | .ok r => .ok r
  | .status c => .error (classifyStatus c)
  | .network => .error .otherErr

/-! ## `app/config/settings.py` (the fields the embedded code reads), plus the
`os.getenv` parameters read inline by `reply_flow.py`. -/

structure ReplyDelaySettings where
  min_seconds : Int := 5
  max_seconds : Int := 10
  rare_long_probability : Rat := 0
  rare_long_min_seconds : Int := 180
  rare_long_max_seconds : Int := 360
  inactivity_long_threshold_minutes : Int := 120
  inactivity_long_min_seconds : Int := 180
  inactivity_long_max_seconds : Int := 300
deriving DecidableEq, Repr

structure Settings where
  max_user_text_len : Nat := 4000
  /-- `settings.antispam.user_min_seconds_between_msg`. -/
  user_min_seconds_between_msg : Int := 5
  /-- `settings.proactive.default_auto_messages`. -/
  default_auto_messages : Bool := true
  proactive_min_seconds : Int := 3600
  proactive_max_seconds : Int := 7200
  reply_delay : ReplyDelaySettings := {}
  proactive_morning_window : Option String := none
  proactive_evening_window : Option String := none
  proactive_quiet_window : Option String := none
  reengage_min_hours : Int := 6
  reengage_cooldown_hours : Int := 12
  /-- `PHOTO_REPLY_DELAY_MIN` / `..._MAX` env vars. -/
  photo_delay_min : Int := 5
  photo_delay_max : Int := 6
  /-- `VOICE_DELAY_EXTRA_MIN` / `..._MAX` env vars (float seconds → microseconds). -/
  voice_extra_min_us : Int := 2 * usPerSecond
  voice_extra_max_us : Int := 4 * usPerSecond
  /-- `ABUSE_WINDOW_MINUTES` / `ABUSE_MAX_IN_WINDOW` / `ABUSE_AUTO_BLOCK_HOURS`. -/
  abuse_window_minutes : Int := 30
  abuse_max_in_window : Int := 10
  abuse_autoblock_hours : Int := 24
deriving DecidableEq, Repr

/-! ## The debounce buffer of `reply_flow.py` (`buffer_or_process`) -/

def DEBOUNCE_INITIAL_SECONDS : Int := 10

def DEBOUNCE_EXTENSION_SECONDS : Int := 6

def DEBOUNCE_ABSOLUTE_MAX_SECONDS : Int := 30

/-- The buffer payload stored in `ChatState.pending_input_json`.  The source
stores the three timestamps as ISO strings it later re-parses; since it only
ever parses strings it wrote itself, they are modelled as `Int` directly. -/
structure BufferPayload where
  text : String
  media : Option Media := none
  started_at : Int
  deadline_at : Int
  absolute_deadline_at : Int
  user_id : Option Int := none
  username : Option String := none
  lang : Option String := none
  chat_type : String := "private"
  /-- The `_flushing` marker set by `flush_pending_input`. -/
  flushing : Bool := false
deriving DecidableEq, Repr

/-- `ChatState` (`app/db/models.py` plus the pending-buffer columns of migration
`0011_add_pending_input_buffer`). -/
structure ChatState where
  persona_key : Option String := none
  auto_enabled : Bool := true
  last_user_msg_at : Option Int := none
  last_assistant_at : Option Int := none
  next_proactive_at : Option Int := none
  memory_rev : Int := 1
  last_morning_sent_at : Option Int := none
  last_goodnight_sent_at : Option Int := none
  last_goodnight_followup_sent_at : Option Int := none
  last_reengage_sent_at : Option Int := none
  timezone_offset_minutes : Option Int := none
  sleep_until : Option Int := none
  proactive_via_userbot : Bool := false
  last_long_pause_reply_at : Option Int := none
  pending_input_json : Option BufferPayload := none
  pending_started_at : Option Int := none
  pending_updated_at : Option Int := none
deriving DecidableEq, Repr

def mediaIsPhoto : Option Media → Bool
  | some m => m.origin = some "photo"
  | none => false

/-- The `_start_buffer()` closure of `buffer_or_process`. -/
def startBuffer (now : Int) (text : String) (media : Option Media)
    (user_id : Option Int) (username lang : Option String)
    (chat_type : String) : BufferPayload :=
  { text := pyStrip text
    media := media
    started_at := now
    deadline_at := now + DEBOUNCE_INITIAL_SECONDS * usPerSecond
    absolute_deadline_at := now + DEBOUNCE_ABSOLUTE_MAX_SECONDS * usPerSecond
    user_id := user_id, username := username, lang := lang
    chat_type := chat_type }

inductive AppendOutcome where
  /-- `"(buffer_started)"`. -/
  | bufferStarted
  /-- `"(buffer_extended)"`. -/
  | bufferExtended
  /-- A flush of the previous payload happened, then a new buffer started. -/
  | flushedThenStarted
deriving DecidableEq, Repr

/-- The effect of one `buffer_or_process` call on the pending payload (the
flush itself — which forwards the captured payload to `process_user_text` — is
reported via the outcome; the displaced payload is the `existing` argument). -/
def bufferAppend (now : Int) (text : String) (media : Option Media)
    (user_id : Option Int) (username lang : Option String) (chat_type : String)
    (existing : Option BufferPayload) : BufferPayload × AppendOutcome :=
  match existing with
  | none => (startBuffer now text media user_id username lang chat_type, .bufferStarted)
  | some ex =>
    if mediaIsPhoto media && mediaIsPhoto ex.media then
      (startBuffer now text media user_id username lang chat_type, .flushedThenStarted)
    else if now ≥ ex.absolute_deadline_at then
      (startBuffer now text media user_id username lang chat_type, .flushedThenStarted)
    else if now ≥ ex.deadline_at then
      (startBuffer now text media user_id username lang chat_type, .flushedThenStarted)
    else
      let newDeadline0 := now + DEBOUNCE_EXTENSION_SECONDS * usPerSecond
      let newDeadline :=
        if newDeadline0 > ex.absolute_deadline_at then ex.absolute_deadline_at
        else newDeadline0
      let newPart := pyStrip text
      let mergedText :=
        if newPart ≠ "" then
          if ex.text ≠ "" then pyStrip (ex.text ++ " " ++ newPart) else newPart
        else ex.text
      let newMedia :=
        if ex.media = none && mediaIsPhoto media then media else ex.media
      ({ ex with text := mergedText, media := newMedia, deadline_at := newDeadline },
       .bufferExtended)

/-! ## `process_user_text` (`reply_flow.py`, lines 358-884) -/

/-- `trimmed[:n]` clipping applied when `len(trimmed) > n`. -/
def pyClip (s : String) (n : Nat) : String :=
  if s.data.length > n then String.mk (s.data.take n) else s

def GOODNIGHT_KEYWORDS : List String :=
  ["споки", "спокойной", "доброй ночи", "споки ноки", "споки-ноки",
   "на ночь", "пора спать", "иду спать"]

/-- Python `needle in hay`. -/
def strContainsSub (hay needle : String) : Bool :=
  hay.toList.tails.any (fun suf => needle.toList.isPrefixOf suf)

/-- `_normalize`: `txt.lower().strip()`. -/
def normalizeText (txt : String) : String := pyStrip (pyLower txt)

/-- `_has_goodnight`. -/
def hasGoodnight (text : String) : Bool :=
  GOODNIGHT_KEYWORDS.any (fun k => strContainsSub (normalizeText text) k)

/-- `wake_local` of the quiet-window branches (lines 501-510 / 543-552): today's
local end-of-window instant, pushed one day out when it has already passed. -/
def quietWakeLocal (local_now : Int) (minute : Int) (s e : Int) : Int :=
  if s < e then
    let w := dayStart local_now + e * usPerMinute
    if w ≤ local_now then w + usPerDay else w
  else
    let w := dayStart local_now + e * usPerMinute
    if minute ≥ s then w + usPerDay else w

/-- `random.uniform(lo, hi)` (microseconds): an oracle draw, coerced into the
guaranteed range of the source call. -/
def pyUniform (lo hi draw : Int) : Int :=
  if lo ≤ draw ∧ draw ≤ hi then draw else lo

/-- One `events` row (`session.add(Event(...))`), projected to the payload keys
the embedded code writes and the claims mention. -/
structure EventRow where
  kind : String
  intent : Option String := none
  status : Option Int := none
  suggested_mute_hours : Option Int := none
deriving DecidableEq, Repr

/-- The persisted `AssistantMessage.meta_json`, projected to the keys the
embedded code writes (upstream extras it merely copies through are omitted). -/
structure AssistantMetaRow where
  persona : Option String := none
  intent : Option String := none
  proactive : Bool := false
  abuse : Option Bool := none
  mute_hours : Option Int := none
  delay_kind : Option String := none
  delay_seconds_us : Option Int := none
deriving DecidableEq, Repr

structure AssistantRow where
  text : String
  meta : AssistantMetaRow
deriving DecidableEq, Repr

/-- An upstream request (`N8nRequest`), projected to the fields the claims
inspect. -/
structure UpstreamReq where
  intent : String
  persona : Option String := none
  memory_rev : Option Int := none
  history_len : Nat := 0
  message : Option MessageIn := none
deriving DecidableEq, Repr

/-- Oracles for one `process_user_text` invocation: the HTTP outcome of the (at
most one) upstream call, DB query results, random draws, and the clock.  Every
`utcnow()` read after the initial `now = utcnow()` is modelled by `later`. -/
structure TurnEnv where
  http : HttpOutcome := .network
  later : Int := 0
  /-- Draw behind `future_with_jitter(reply_delay.min, reply_delay.max)`. -/
  drawNormal : Nat := 0
  /-- `random.random()` for the rare-long branch. -/
  randUnit : Rat := 1
  uniformInactivity : Int := 0
  uniformRare : Int := 0
  uniformPhoto : Int := 0
  uniformVoiceExtra : Int := 0
  /-- Draw behind `future_with_jitter(proactive.min, proactive.max)`. -/
  drawProactive : Nat := 0
  /-- The `abuse_detected` count the window query returns. -/
  abuseCount : Int := 0
  /-- Kind of the latest abuse event, for the `/status` reason lookup. -/
  lastAbuseEventKind : Option String := none
  /-- `bot.suppress_errors`. -/
  suppress_errors : Bool := false
  /-- What `fetch_recent_history` returns for this chat. -/
  history : List HistoryItem := []
deriving DecidableEq, Repr

structure TurnInput where
  chat_id : Int := 0
  chat_type : String := "private"
  user_id : Option Int := none
  username : Option String := none
  lang : Option String := none
  text : String
  media : Option Media := none
  tg_message_id : Option Int := none
  skip_persist_user : Bool := false
deriving DecidableEq, Repr

/-- The observable effects of one `process_user_text` invocation: the returned
value (or the exception propagated to the caller), the `ChatState` as mutated in
the session, `bot.send_message` texts, persisted rows, events, metric counter
increments and observations, and the upstream calls issued. -/
structure TurnResult where
  result : Except PyErr String
  state : ChatState
  sent : List String := []
  userRows : List String := []
  assistantRows : List AssistantRow := []
  events : List EventRow := []
  incs : List (String × List (String × String)) := []
  observes : List (String × Int × List (String × String)) := []
  upstream : List UpstreamReq := []
deriving DecidableEq, Repr

def trimmedText (settings : Settings) (inp : TurnInput) : String :=
  pyClip (pyStrip inp.text) settings.max_user_text_len

/-- `ensure_entities`: create the `ChatState` with its defaults, or backfill a
missing `persona_key` (the Chat/User upserts have no further observable effect
here). -/
def ensure_entities (settings : Settings) (st0 : Option ChatState) : ChatState :=
  match st0 with
  | none => { auto_enabled := settings.default_auto_messages, persona_key := some "nika" }
  | some s => if s.persona_key = none then { s with persona_key := some "nika" } else s

/-- The `state.sleep_until and state.sleep_until > now` gate. -/
def sleepGateActive (sleep_until : Option Int) (now : Int) : Bool :=
  match sleep_until with
  | some t => now < t
  | none => false

/-- Steps 10-14 of the turn (build request, call upstream, moderation, delay
policy, send, persist) — `reply_flow.py` lines 581-884, reached when no command,
anti-spam, sleep or quiet-window branch returned first. -/
def processMain (settings : Settings) (env : TurnEnv) (inp : TurnInput)
    (now : Int) (st2 : ChatState) (trimmed : String)
    (prev_user_ts : Option Int) (userRows : List String)
    (incs0 : List (String × List (String × String))) : TurnResult :=
  match messageInValidate (some trimmed) inp.media with
  | .error e =>
    -- pydantic raises out of `MessageIn.model_validate`; no upstream call is made
    { result := .error e, state := st2, userRows := userRows, incs := incs0 }
  | .ok msgIn =>
    let req : UpstreamReq :=
      { intent := "reply", persona := st2.persona_key
        memory_rev := some st2.memory_rev
        history_len := env.history.length, message := some msgIn }
    match call_n8n env.http with
    | .error (.server s) =>
      { result := .error (.n8nServer s), state := st2, userRows := userRows
        events := [{ kind := "n8n_error_5xx", intent := some "reply", status := some s }]
        incs := incs0 ++ [("n8n_errors_total", [("intent", "reply"), ("class", "5xx")])]
        upstream := [req] }
    | .error (.client s) =>
      let evs := [{ kind := "n8n_error_4xx", intent := some "reply", status := some s : EventRow }]
      let incs := incs0 ++ [("n8n_errors_total", [("intent", "reply"), ("class", "4xx")])]
      if !env.suppress_errors then
        { result := .ok "Некорректный запрос", state := st2
          sent := ["Некорректный запрос"], userRows := userRows
          events := evs, incs := incs, upstream := [req] }
      else
        { result := .ok "(n8n_error_suppressed)", state := st2, userRows := userRows
          events := evs, incs := incs, upstream := [req] }
    | .error .otherErr =>
      { result := .error .n8nOther, state := st2, userRows := userRows
        events := [{ kind := "n8n_error_other", intent := some "reply" }]
        incs := incs0 ++ [("n8n_errors_total", [("intent", "reply"), ("class", "other")])]
        upstream := [req] }
    | .ok resp =>
      -- moderation from the response meta (lines 647-724)
      let meta := resp.meta
      let flagged : Option Bool × Option Int :=
        match meta.abuse, meta.flags with
        | none, some f =>
          (f.abuse, match meta.mute_hours with
                    | none => f.mute_hours
                    | some v => some v)
        | a, _ => (a, meta.mute_hours)
      let abuseStep : List EventRow × ChatState :=
        if flagged.1 = some true then
          let ev0 : EventRow := { kind := "abuse_detected", suggested_mute_hours := flagged.2 }
          if env.abuseCount ≥ settings.abuse_max_in_window then
            ([ev0, { kind := "abuse_auto_block" }],
             { st2 with
                sleep_until := some (env.later + settings.abuse_autoblock_hours * usPerHour) })
          else ([ev0], st2)
        else ([], st2)
      let evAbuse := abuseStep.1
      let stA := abuseStep.2
      -- reply-delay policy (lines 726-821)
      let prev_activity : Option Int :=
        match prev_user_ts, stA.last_assistant_at with
        | some a, some b => some (max a b)
        | some a, none => some a
        | none, b => b
      let thr_min := settings.reply_delay.inactivity_long_threshold_minutes
      let enforcedStep : Option Int × ChatState :=
        match prev_activity with
        | some pa =>
          if 0 < thr_min ∧ thr_min * usPerMinute ≤ now - pa then
            if (match stA.last_long_pause_reply_at with
                | none => true
                | some lp => decide (lp < pa)) then
              let il_min := settings.reply_delay.inactivity_long_min_seconds
              let il_max0 := settings.reply_delay.inactivity_long_max_seconds
              let il_max := if il_max0 < il_min then il_min else il_max0
              (some (pyUniform (il_min * usPerSecond) (il_max * usPerSecond)
                      env.uniformInactivity),
               { stA with last_long_pause_reply_at := some now })
            else (none, stA)
          else (none, stA)
        | none => (none, stA)
      let enforced := enforcedStep.1
      let stB := enforcedStep.2
      let delayJ := future_with_jitter settings.reply_delay.min_seconds
        settings.reply_delay.max_seconds now env.drawNormal
      let delayNormal := max 0 (delayJ - now)
      let firstPick : Int × String :=
        match enforced with
        | some d => (d, "inactivity_long")
        | none =>
          let rl_prob := settings.reply_delay.rare_long_probability
          if 0 < rl_prob ∧ env.randUnit < rl_prob then
            let lmin := settings.reply_delay.rare_long_min_seconds
            let lmax0 := settings.reply_delay.rare_long_max_seconds
            let lmax := if lmax0 < lmin then lmin else lmax0
            (pyUniform (lmin * usPerSecond) (lmax * usPerSecond) env.uniformRare,
             "rare_long")
          else (delayNormal, "normal")
      let obs1 : List (String × Int × List (String × String)) :=
        [("reply_delay_seconds", firstPick.1, [])]
      let media_origin := inp.media.bind (·.origin)
      let mediaPick : Int × String :=
        if media_origin = some "photo" ∧ enforced = none then
          let pmin := settings.photo_delay_min
          let pmax0 := settings.photo_delay_max
          let pmax := if pmax0 < pmin then pmin else pmax0
          (pyUniform (pmin * usPerSecond) (pmax * usPerSecond) env.uniformPhoto, "photo")
        else if (media_origin = some "voice" ∨ media_origin = some "audio")
            ∧ enforced = none then
          let emin := settings.voice_extra_min_us
          let emax0 := settings.voice_extra_max_us
          let emax := if emax0 < emin then emin else emax0
          let dur0 : Int :=
            match inp.media.bind (·.duration) with
            | some d => d * usPerSecond
            | none => 0
          let dur := max (1500000 : Int) (min dur0 (120 * usPerSecond))
          (dur + pyUniform emin emax env.uniformVoiceExtra, "voice")
        else firstPick
      let delay_us := mediaPick.1
      let delay_kind := mediaPick.2
      let obs2 := obs1 ++
        [("reply_delay_seconds", delay_us,
          [("adjusted", if pyTruthyOptStr media_origin then "1" else "0")])]
      if delay_us ≤ 30 * usPerSecond then
        -- (covers both `delay <= 0` and the short-delay branch, which fall
        -- through to the `delay_seconds <= 30` send-and-persist block)
        let sent_text := resp.reply
        let personaOut : Option String :=
          match meta.persona with
          | some p => some p
          | none => if pyTruthyOptStr stB.persona_key then stB.persona_key else none
        let metaRow : AssistantMetaRow :=
          { persona := personaOut, intent := meta.intent
            abuse := meta.abuse, mute_hours := meta.mute_hours
            delay_kind := some delay_kind, delay_seconds_us := some delay_us }
        let stC := { stB with last_assistant_at := some env.later }
        let stD :=
          if stC.auto_enabled then
            { stC with
               next_proactive_at := some (future_with_jitter
                 settings.proactive_min_seconds settings.proactive_max_seconds
                 env.later env.drawProactive) }
          else stC
        { result := .ok sent_text, state := stD
          sent := [sent_text], userRows := userRows
          assistantRows := [{ text := sent_text, meta := metaRow }]
          events := evAbuse
          incs := incs0 ++ [("replies_sent_total", [])]
          observes := obs2, upstream := [req] }
      else
        -- long-delay branch (line 865): `_delayed_send(..., meta, ...)` reads
        -- the local `meta`, which is first assigned only in the short-delay
        -- block (line 872) — `UnboundLocalError` propagates to the caller
        { result := .error (.unboundLocal "meta"), state := stB
          userRows := userRows, events := evAbuse
          incs := incs0, observes := obs2, upstream := [req] }

/-- The turn processor `process_user_text`. -/
def processUserText (settings : Settings) (env : TurnEnv) (inp : TurnInput)
    (now : Int) (st0 : Option ChatState) : TurnResult :=
  let trimmed := trimmedText settings inp
  let st1 := ensure_entities settings st0
  let userRows := if inp.skip_persist_user then [] else [trimmed]
  let prev_user_ts := st1.last_user_msg_at
  let st2 := { st1 with last_user_msg_at := some now }
  let lowered := pyLower trimmed
  if pyStartsWith lowered "/wake" then
    let st3 := if st2.sleep_until.isSome then { st2 with sleep_until := none } else st2
    let reply := "Я проснулась, можем продолжать ☀️"
    { result := .ok reply, state := { st3 with last_assistant_at := some env.later }
      sent := [reply], userRows := userRows }
  else if pyStartsWith lowered "/reset" then
    let st3 := if st2.sleep_until.isSome then { st2 with sleep_until := none } else st2
    let reply := "Контекст очищен: история сброшена, память перезапущена. Можешь продолжать."
    { result := .ok reply, state := { st3 with last_assistant_at := some env.later }
      sent := [reply], userRows := userRows }
  else if pyStartsWith lowered "/status" then
    let sleeping := sleepGateActive st2.sleep_until env.later
    let remaining : Int :=
      match st2.sleep_until with
      | some t => if sleeping then pyIntOfSeconds (t - env.later) else 0
      | none => 0
    let reason0 : Option String :=
      if sleeping then
        env.lastAbuseEventKind.map (fun k =>
          if k = "abuse_auto_block" then "abuse_auto_block" else "abuse_detected")
      else none
    let reason := if sleeping ∧ reason0 = none then some "night_mode_or_manual" else reason0
    let persona := if pyTruthyOptStr st2.persona_key then st2.persona_key.getD "nika" else "nika"
    let auto := if st2.auto_enabled then "on" else "off"
    let parts := ["persona: " ++ persona, "proactive: " ++ auto] ++
      (if sleeping then
        ["sleep: yes (" ++ toString remaining ++ "s left, reason=" ++ (reason.getD "") ++ ")"]
       else ["sleep: no"])
    let reply := String.intercalate "; " parts
    { result := .ok reply, state := { st2 with last_assistant_at := some env.later }
      sent := [reply], userRows := userRows }
  else
    let incs0 := [("messages_received_total", ([] : List (String × String)))]
    let min_gap := settings.user_min_seconds_between_msg
    if !is_allowed prev_user_ts now min_gap then
      let wait := remaining_wait_seconds prev_user_ts now min_gap
      let warn := "Слишком часто, подождите ещё " ++ toString wait ++ " c"
      { result := .ok warn, state := st2, sent := [warn]
        userRows := userRows, incs := incs0 }
    else if sleepGateActive st2.sleep_until now then
      { result := .ok "(sleep)", state := st2, userRows := userRows, incs := incs0 }
    else
      let offset_min := st2.timezone_offset_minutes.getD 0
      let local_now := now + offset_min * usPerMinute
      let minute := minuteOfDay local_now
      match parseWindow settings.proactive_quiet_window with
      | some (s, e) =>
        if hasGoodnight trimmed && inWindow minute (some (s, e)) then
          let wake_utc := quietWakeLocal local_now minute s e - offset_min * usPerMinute
          let req : UpstreamReq :=
            { intent := "user_goodnight", persona := st2.persona_key
              memory_rev := some st2.memory_rev, history_len := 0
              message := some { text := some trimmed } }
          let reply :=
            match call_n8n env.http with
            | .ok r => r.reply
            | .error _ => "Спокойной ночи!"
          { result := .ok reply
            state := { st2 with
                        sleep_until := some wake_utc
                        last_assistant_at := some env.later }
            sent := [reply], userRows := userRows
            assistantRows := [{ text := reply
                                meta := { intent := some "user_goodnight"
                                          proactive := true
                                          persona := st2.persona_key } }]
            incs := incs0, upstream := [req] }
        else if inWindow minute (some (s, e)) && st2.last_goodnight_sent_at.isSome
            && st2.last_goodnight_followup_sent_at.isNone
            && !hasGoodnight trimmed then
          let wake_utc := quietWakeLocal local_now minute s e - offset_min * usPerMinute
          let req : UpstreamReq :=
            { intent := "goodnight_followup", persona := st2.persona_key
              memory_rev := some st2.memory_rev, history_len := 0
              message := some { text := some trimmed } }
          let reply :=
            match call_n8n env.http with
            | .ok r => r.reply
            | .error _ => "Я ухожу спать до утра."
          { result := .ok reply
            state := { st2 with
                        sleep_until := some wake_utc
                        last_goodnight_followup_sent_at := some env.later
                        last_assistant_at := some env.later }
            sent := [reply], userRows := userRows
            assistantRows := [{ text := reply
                                meta := { intent := some "goodnight_followup"
                                          proactive := true
                                          persona := st2.persona_key } }]
            incs := incs0, upstream := [req] }
        else
          processMain settings env inp now st2 trimmed prev_user_ts userRows incs0
      | none =>
        processMain settings env inp now st2 trimmed prev_user_ts userRows incs0

/-- `flush_pending_input`: capture the payload (unless absent or already
flushing), clear the pending fields, and process the captured text/media as one
turn. -/
def flush_pending_input (settings : Settings) (env : TurnEnv) (now : Int)
    (st : ChatState) : Option TurnResult :=
  match st.pending_input_json with
  | none => none
  | some p =>
    if p.flushing then none
    else
      let cleared := { st with
                        pending_input_json := none
                        pending_started_at := none
                        pending_updated_at := none }
      some (processUserText settings env
        { chat_id := 0, chat_type := p.chat_type, user_id := p.user_id
          username := p.username, lang := p.lang
          text := pyStrip p.text, media := p.media }
        now (some cleared))

/-! ## `app/bot/services/proactive.py` (`process_due_chats`, one chat) -/

/-- `_cooldown_passed(last, now, delta)`. -/
def cooldownPassed (last : Option Int) (now : Int) (delta : Int) : Bool :=
  match last with
  | none => true
  | some t => delta ≤ now - t

/-- The observable actions of the per-chat body of `process_due_chats`, in
execution order. -/
inductive PAct where
  /-- `call_n8n(req)` with this intent. -/
  | upstreamCall (intent : String)
  /-- Assignment of `state.last_*_sent_at = now_utc` (the named column). -/
  | stamp (field : String)
  /-- `await session.flush()`. -/
  | dbFlush
  /-- `bot.send_message(chat_id, resp.reply)`. -/
  | send (text : String)
  /-- `session.add(ProactiveOutbox(...))` with this intent. -/
  | outbox (intent : String)
  /-- `session.add(AssistantMessage(...))`. -/
  | persist (text : String)
  /-- `session.add(Event(kind))`. -/
  | event (kind : String)
  /-- `await session.commit()`. -/
  | commitTx
deriving DecidableEq, Repr

/-- Oracles for one chat of the sweep. -/
structure ProactiveEnv where
  /-- `pg_try_advisory_xact_lock` result. -/
  lockOk : Bool := true
  /-- Upstream outcome (`except Exception` is all the sweep distinguishes). -/
  n8n : Except Unit N8nResponse := .error ()
  /-- The recent-assistant-message count of the morning anti-spam guard. -/
  morningRecentCount : Int := 0
  /-- Whether `bot.send_message` succeeds. -/
  sendOk : Bool := true
  /-- `utcnow()` reads after `now_utc` (line 211 / 225). -/
  later : Int := 0
  /-- Draw behind `compute_next_proactive_at`. -/
  drawProactive : Nat := 0
deriving DecidableEq, Repr

/-- `last_*_sent_at` column stamped for a proactive intent (lines 193-198). -/
def stampField (intent : String) : Option String :=
  if intent = "proactive_morning" then some "last_morning_sent_at"
  else if intent = "proactive_evening" then some "last_goodnight_sent_at"
  else if intent = "proactive_reengage" then some "last_reengage_sent_at"
  else none

/-- Intent selection of the sweep (lines 105-141), for a chat that already
passed the persona/sleep/quiet skips. -/
def selectIntent (settings : Settings) (now_utc : Int) (st : ChatState) :
    Option (String × Bool) :=
  let winMorning := parseWindow settings.proactive_morning_window
  let winEvening := parseWindow settings.proactive_evening_window
  let offset_min := st.timezone_offset_minutes.getD 0
  let local_now := now_utc + offset_min * usPerMinute
  let minute := minuteOfDay local_now
  let last_activity : Option Int :=
    match st.last_user_msg_at, st.last_assistant_at with
    | some a, some b => some (max a b)
    | some a, none => some a
    | none, b => b
  if winMorning.isSome && inWindow minute winMorning
      && !sameUtcDay st.last_morning_sent_at now_utc then
    some ("proactive_morning", true)
  else if winEvening.isSome && inWindow minute winEvening
      && !sameUtcDay st.last_goodnight_sent_at now_utc
      && cooldownPassed st.last_goodnight_sent_at now_utc (30 * usPerMinute) then
    some ("proactive_evening", true)
  else if (match last_activity with
           | some la => decide (settings.reengage_min_hours * usPerHour ≤ now_utc - la)
           | none => false)
      && (match st.last_reengage_sent_at with
          | none => true
          | some lr => decide (settings.reengage_cooldown_hours * usPerHour ≤ now_utc - lr)) then
    some ("proactive_reengage", true)
  else if (match st.next_proactive_at with
           | some t => decide (t ≤ now_utc)
           | none => false) then
    some ("proactive_generic", false)
  else none

/-- Whether the sweep skips this chat before selecting an intent (persona
falsy, sleeping, or inside the quiet window — lines 84-97). -/
def sweepSkips (settings : Settings) (now_utc : Int) (st : ChatState) : Bool :=
  !pyTruthyOptStr st.persona_key
    || (match st.sleep_until with
        | some t => decide (now_utc < t)
        | none => false)
    || (let winQuiet := parseWindow settings.proactive_quiet_window
        let offset_min := st.timezone_offset_minutes.getD 0
        winQuiet.isSome
          && inWindow (minuteOfDay (now_utc + offset_min * usPerMinute)) winQuiet)

/-- The per-chat body of `process_due_chats` (lines 83-235): the ordered list of
observable actions and the post-state. -/
def proactiveChat (settings : Settings) (env : ProactiveEnv) (now_utc : Int)
    (st : ChatState) : List PAct × ChatState :=
  if sweepSkips settings now_utc st then ([], st)
  else
    match selectIntent settings now_utc st with
    | none => ([], st)
    | some (intent, _trim) =>
      if !env.lockOk then ([], st)
      else
        match env.n8n with
        | .error _ =>
          let st' :=
            if intent = "proactive_generic" then
              { st with next_proactive_at := some (future_with_jitter
                  settings.proactive_min_seconds settings.proactive_max_seconds
                  now_utc env.drawProactive) }
            else st
          ([.upstreamCall intent, .event "n8n_error"], st')
        | .ok resp =>
          if intent = "proactive_morning"
              ∧ 1 ≤ env.morningRecentCount then
            ([.upstreamCall intent, .commitTx], { st with auto_enabled := false })
          else
            let st1 :=
              if intent = "proactive_morning" then
                { st with last_morning_sent_at := some now_utc }
              else if intent = "proactive_evening" then
                { st with last_goodnight_sent_at := some now_utc }
              else if intent = "proactive_reengage" then
                { st with last_reengage_sent_at := some now_utc }
              else st
            let stampActs :=
              match stampField intent with
              | some f => [PAct.stamp f]
              | none => []
            let deliverStep : List PAct × ChatState :=
              if st1.proactive_via_userbot then
                ([.outbox intent], st1)
              else if env.sendOk then
                ([.send resp.reply, .persist resp.reply],
                 { st1 with last_assistant_at := some env.later })
              else ([], st1)
            let st2 := deliverStep.2
            let st3 :=
              if intent = "proactive_generic" then
                { st2 with next_proactive_at := some (future_with_jitter
                    settings.proactive_min_seconds settings.proactive_max_seconds
                    (st2.last_assistant_at.getD env.later) env.drawProactive) }
              else st2
            ([.upstreamCall intent] ++ stampActs ++ [.dbFlush] ++ deliverStep.1
               ++ [.dbFlush, .commitTx], st3)

/-! ## `app/db/task_queue.py` + migration `0012_add_tasks_queue.py` -/

/-- One row of the `tasks` table (the columns `enqueue_task` touches). -/
structure TaskRow where
  id : Nat := 0
  kind : String
  status : String := "pending"
  priority : Int := 100
  dedup_key : Option String := none
  attempts : Int := 0
deriving DecidableEq, Repr

inductive DbErr where
  /-- Violation of the `UNIQUE` constraint on `tasks.dedup_key` (migration
  `0012_add_tasks_queue.py`, line 30) raised at flush/commit. -/
  | uniqueViolation
deriving DecidableEq, Repr

/-- `enqueue_task`: a plain `session.add(Task(...))`; at flush/commit the
database enforces the unique constraint on `dedup_key`.  On success the new row
is appended; on a duplicate key the transaction fails with an integrity error
and the table is unchanged. -/
def enqueue_task (table : List TaskRow) (kind : String) (priority : Int)
    (dedup_key : Option String) : Except DbErr (List TaskRow) :=
  let t : TaskRow := { kind := kind, priority := priority, dedup_key := dedup_key }
  match dedup_key with
  | some k =>
    if table.any (fun r => r.dedup_key = some k) then .error .uniqueViolation
    else .ok (table ++ [t])
  | none => .ok (table ++ [t])

/-! ## Derived predicates used to state the claims -/

/-- The stored-payload invariant of claim C10. -/
def bufferInvariant (b : BufferPayload) : Prop :=
  b.deadline_at ≤ b.absolute_deadline_at
    ∧ b.absolute_deadline_at = b.started_at + DEBOUNCE_ABSOLUTE_MAX_SECONDS * usPerSecond

/-- One inbound fragment event for the debounce buffer. -/
structure AppendEvent where
  now : Int
  text : String
  media : Option Media := none
deriving DecidableEq, Repr

/-- A sequence of `buffer_or_process` calls starting from an empty buffer. -/
def bufferRun (user_id : Option Int) (username lang : Option String)
    (chat_type : String) (events : List AppendEvent) : Option BufferPayload :=
  events.foldl
    (fun b e =>
      some (bufferAppend e.now e.text e.media user_id username lang chat_type b).1)
    none

/-- Whether the lowered trimmed text diverts into one of the three in-band
command branches (steps handled before the anti-spam gate). -/
def isTurnCommand (trimmed : String) : Bool :=
  pyStartsWith (pyLower trimmed) "/wake" || pyStartsWith (pyLower trimmed) "/reset"
    || pyStartsWith (pyLower trimmed) "/status"

/-! ## Concrete instances used by the claim theorems -/

/-- Scenario S2's chat state: one user message at `T = 0`. -/
def stPrev0 : ChatState := { persona_key := some "nika", last_user_msg_at := some 0 }

/-- A chat state that has exchanged messages before (for inactivity delays). -/
def stIdle : ChatState :=
  { persona_key := some "nika", last_user_msg_at := some 0, last_assistant_at := some 0 }

/-- A chat state with an earlier user message and an active sleep window. -/
def stResetIn : ChatState :=
  { persona_key := some "nika", sleep_until := some (3600 * usPerSecond)
    memory_rev := 1, last_user_msg_at := some 0 }

/-- Environment whose upstream call succeeds and whose inactivity-long draw is
200 s (inside the configured `[180, 300]` range). -/
def envLongDelay : TurnEnv :=
  { http := .ok { reply := "привет" }, uniformInactivity := 200 * usPerSecond }

/-- The photo media dict built by `on_photo` (`handlers/messages.py` 132-144)
after a successful upload. -/
def photoMedia : Media := { origin := some "photo", image_url := some "http://files/u.jpg" }

/-- Debounce scenario S3: photo with empty caption at `T = 0`. -/
def photoBuf : BufferPayload × AppendOutcome :=
  bufferAppend 0 "" (some photoMedia) (some 7) none none "private" none

/-- …then the text fragment `"look"` at `T + 1 s`. -/
def photoTextBuf : BufferPayload × AppendOutcome :=
  bufferAppend (1 * usPerSecond) "look" none (some 7) none none "private" (some photoBuf.1)

/-- The chat state holding the aggregated photo+caption buffer. -/
def stPhotoPending : ChatState :=
  { persona_key := some "nika", pending_input_json := some photoTextBuf.1 }

/-- A pre-seeded tasks table with one row carrying the live dedup key. -/
def tasksWithKey : List TaskRow :=
  [{ kind := "incoming_user_message", dedup_key := some "inmsg:1:100" }]

/-- Five history items of 3 characters each. -/
def hItem (i : Int) : HistoryItem := ⟨"user", "aaa", i⟩

def hFive : List HistoryItem := [hItem 0, hItem 1, hItem 2, hItem 3, hItem 4]

/-- The claim's reading of the soft trim: the output is a prefix of the input
accumulating at most `soft_head` characters followed by a suffix accumulating at
most `soft_tail` characters. -/
def headTailSplitClaim (input output : List HistoryItem)
    (soft_head soft_tail : Nat) : Bool :=
  (List.range (input.length + 1)).any fun hn =>
    (List.range (input.length + 1)).any fun tn =>
      decide (output = input.take hn ++ input.drop (input.length - tn))
        && decide (totalChars (input.take hn) ≤ soft_head)
        && decide (totalChars (input.drop (input.length - tn)) ≤ soft_tail)

/-- Morning-window settings for the proactive sweep scenario. -/
def morningSettings : Settings := { proactive_morning_window := some "07:00-09:30" }

/-- An eligible chat at local 07:30 (offset 0) that has not had a morning
message today. -/
def stMorning : ChatState := { persona_key := some "nika", timezone_offset_minutes := some 0 }

def envMorning : ProactiveEnv := { n8n := .ok { reply := "доброе утро" } }

/-- Scenario S4 settings: quiet window `00:30-07:00`. -/
def quietSettings : Settings := { proactive_quiet_window := some "00:30-07:00" }

/-- S4 chat: timezone +180 minutes, previous user message long ago. -/
def stQuiet : ChatState :=
  { persona_key := some "nika", timezone_offset_minutes := some 180
    last_user_msg_at := some 0 }

/-- S4 chat, already sleeping until well past the quiet window. -/
def stQuietSleeping : ChatState := { stQuiet with sleep_until := some (2 * usPerDay) }

def envQuiet : TurnEnv :=
  { http := .ok { reply := "споки, солнце" }, later := (22 * 60 + 11) * usPerMinute }

/-- S4 arrival instant: UTC 22:10, i.e. local 01:10 next day. -/
def quietNow : Int := (22 * 60 + 10) * usPerMinute

/-! ## Claim theorems -/

/-- **C2** (code bug): in the debounced photo-plus-caption turn, the aggregated
buffer does carry the photo media and caption `"look"`, but building the
upstream request fails: `MessageIn.origin` is `Optional[Literal["text", "voice",
"audio"]]` (`n8n_io.py` line 35), so `MessageIn.model_validate` raises a
`ValidationError` for `origin="photo"` and no upstream request is sent at all. -/
theorem c2_photo_origin_validation_bug :
    photoTextBuf.2 = .bufferExtended
      ∧ photoTextBuf.1.text = "look"
      ∧ photoTextBuf.1.media = some photoMedia
      ∧ messageInValidate (some "look") (some photoMedia) = .error .validationFailure
      ∧ (flush_pending_input {} { http := .ok { reply := "wow" } } (10 * usPerSecond)
          stPhotoPending).map (·.result) = some (.error .validationFailure)
      ∧ (flush_pending_input {} { http := .ok { reply := "wow" } } (10 * usPerSecond)
          stPhotoPending).map (·.upstream) = some []
      ∧ (flush_pending_input {} { http := .ok { reply := "wow" } } (10 * usPerSecond)
          stPhotoPending).map (·.sent) = some [] :=
  ⟨rfl, rfl, rfl, rfl, rfl, rfl, rfl⟩

/-- **C4** (code bug): `enqueue_task` is a plain `session.add` with no
`ON CONFLICT DO NOTHING`; re-enqueueing an existing `dedup_key` violates the
unique constraint of migration 0012 and raises at flush/commit instead of being
a silent no-op (the table keeps its single row for the key only because the
transaction fails). -/
theorem c4_duplicate_dedup_key_raises :
    enqueue_task tasksWithKey "incoming_user_message" 100 (some "inmsg:1:100")
        = .error .uniqueViolation
      ∧ (tasksWithKey.filter (fun r => r.dedup_key = some "inmsg:1:100")).length = 1 :=
  ⟨rfl, rfl⟩

/-- **C5** (code bug): a turn whose computed reply delay exceeds 30 s (here the
deterministic inactivity-long delay of 200 s after a 3-hour pause) does not
return the reply text: line 865 of `reply_flow.py` passes the local `meta` to
`_delayed_send`, but `meta` is first assigned only inside the `delay_seconds <=
30` block (line 872), so the branch raises `UnboundLocalError` before sending,
persisting, or spawning the background task. -/
theorem c5_long_delay_unbound_meta :
    (processUserText {} envLongDelay { text := "hi" } (3 * usPerHour) (some stIdle)).result
        = .error (.unboundLocal "meta")
      ∧ (processUserText {} envLongDelay { text := "hi" } (3 * usPerHour) (some stIdle)).sent = []
      ∧ (processUserText {} envLongDelay { text := "hi" } (3 * usPerHour)
          (some stIdle)).assistantRows = []
      ∧ (processUserText {} envLongDelay { text := "hi" } (3 * usPerHour)
          (some stIdle)).upstream.length = 1 :=
  ⟨rfl, rfl, rfl, rfl⟩

/-- **C6** (code bug): the `/reset` branch of the turn processor (lines 411-418)
clears `sleep_until`, replies with the confirmation message, and makes no
upstream call, leaving every other field except `last_user_msg_at` /
`last_assistant_at` unchanged — but it does **not** increment `memory_rev`
(only the higher-level `cmd_reset` command handler does). -/
theorem c6_reset_does_not_bump_memory_rev :
    (processUserText {} {} { text := "/reset" } (10 * usPerSecond) (some stResetIn)).result
        = .ok "Контекст очищен: история сброшена, память перезапущена. Можешь продолжать."
      ∧ (processUserText {} {} { text := "/reset" } (10 * usPerSecond) (some stResetIn)).state
        = { stResetIn with sleep_until := none
                           last_user_msg_at := some (10 * usPerSecond)
                           last_assistant_at := some 0 }
      ∧ (processUserText {} {} { text := "/reset" } (10 * usPerSecond)
          (some stResetIn)).upstream = []
      ∧ stResetIn.memory_rev = 1
      ∧ ¬ (processUserText {} {} { text := "/reset" } (10 * usPerSecond)
            (some stResetIn)).state.memory_rev = stResetIn.memory_rev + 1 :=
  ⟨rfl, rfl, rfl, rfl, by decide⟩

/-- **C3** (counterexample): an eligible morning sweep execution whose trace
begins with the upstream workflow call and stamps `last_morning_sent_at` only
afterwards — the stamping write does **not** precede the upstream call. -/
theorem c3_stamp_after_upstream_call_counterexample :
    (proactiveChat morningSettings envMorning ((7 * 60 + 30) * usPerMinute) stMorning).1
        = [.upstreamCall "proactive_morning", .stamp "last_morning_sent_at", .dbFlush,
           .send "доброе утро", .persist "доброе утро", .dbFlush, .commitTx]
      ∧ List.indexOf (PAct.upstreamCall "proactive_morning")
            (proactiveChat morningSettings envMorning ((7 * 60 + 30) * usPerMinute) stMorning).1
          < List.indexOf (PAct.stamp "last_morning_sent_at")
            (proactiveChat morningSettings envMorning ((7 * 60 + 30) * usPerMinute) stMorning).1 :=
  ⟨rfl, by decide⟩

/-- **C7** (counterexample): a non-command, non-spam turn containing a goodnight
keyword inside the quiet window, arriving while the chat is already sleeping:
the sleep gate returns `"(sleep)"` first, so no `user_goodnight` upstream call
is made and no assistant message is persisted, contradicting the claim as
stated. -/
theorem c7_goodnight_while_sleeping_counterexample :
    hasGoodnight "споки" = true
      ∧ inWindow (minuteOfDay (quietNow + 180 * usPerMinute))
          (parseWindow quietSettings.proactive_quiet_window) = true
      ∧ is_allowed stQuietSleeping.last_user_msg_at quietNow 5 = true
      ∧ (processUserText quietSettings envQuiet { text := "споки" } quietNow
          (some stQuietSleeping)).result = .ok "(sleep)"
      ∧ (processUserText quietSettings envQuiet { text := "споки" } quietNow
          (some stQuietSleeping)).upstream = []
      ∧ (processUserText quietSettings envQuiet { text := "споки" } quietNow
          (some stQuietSleeping)).assistantRows = [] :=
  ⟨rfl, rfl, rfl, rfl, rfl, rfl⟩

/-! ### Helper lemmas -/

theorem ensure_entities_some (settings : Settings) (st : ChatState) :
    ensure_entities settings (some st)
      = { st with persona_key := if st.persona_key = none then some "nika" else st.persona_key } := by
  cases st
  dsimp only [ensure_entities]
  split <;> simp_all

/-- Under the gate hypotheses (no command prefix, anti-spam passed, not
sleeping, local time outside the quiet window) the turn reaches steps 10-14. -/
theorem processUserText_reaches_main (settings : Settings) (env : TurnEnv)
    (inp : TurnInput) (now : Int) (st : ChatState)
    (hcmd : isTurnCommand (trimmedText settings inp) = false)
    (hallow : is_allowed st.last_user_msg_at now settings.user_min_seconds_between_msg = true)
    (hsleep : sleepGateActive st.sleep_until now = false)
    (hquiet : inWindow (minuteOfDay (now + (st.timezone_offset_minutes.getD 0) * usPerMinute))
        (parseWindow settings.proactive_quiet_window) = false) :
    processUserText settings env inp now (some st)
      = processMain settings env inp now
          { ensure_entities settings (some st) with last_user_msg_at := some now }
          (trimmedText settings inp) st.last_user_msg_at
          (if inp.skip_persist_user then [] else [trimmedText settings inp])
          [("messages_received_total", [])] := by
  simp only [isTurnCommand, Bool.or_eq_false_iff] at hcmd
  obtain ⟨⟨hw, hr⟩, hs⟩ := hcmd
  have hens := ensure_entities_some settings st
  rcases hpw : parseWindow settings.proactive_quiet_window with _ | ⟨s, e⟩
  · simp only [processUserText, hw, hr, hs, Bool.false_eq_true, if_false, hens, hallow,
      Bool.not_true, hsleep, hpw]
  · rw [hpw] at hquiet
    simp only [processUserText, hw, hr, hs, Bool.false_eq_true, if_false, hens, hallow,
      Bool.not_true, hsleep, hpw, hquiet, Bool.and_false, Bool.false_and, if_false]

theorem headSteps_le_length (limit : Nat) : ∀ (acc : Nat) (ls : List Nat),
    headSteps limit acc ls ≤ ls.length
  | _, [] => by simp [headSteps]
  | acc, l :: ls => by
    rw [headSteps]
    split
    · have := headSteps_le_length limit (acc + l) ls
      simpa using Nat.succ_le_succ this
    · simp

/-- Before the accumulator loop has consumed its `j`-th length, the running
total is still under the limit. -/
theorem headSteps_prefix_lt (limit : Nat) : ∀ (acc : Nat) (ls : List Nat) (j : Nat),
    j < headSteps limit acc ls → acc + (ls.take j).sum < limit
  | _, [], _ => by simp [headSteps]
  | acc, l :: ls, j => by
    rw [headSteps]
    split
    · intro hj
      cases j with
      | zero => simpa
      | succ j' =>
        have := headSteps_prefix_lt limit (acc + l) ls j' (by omega)
        simp only [List.take_succ_cons, List.sum_cons]
        omega
    · omega

/-- When the loop stops before the end of the list, the consumed lengths have
reached the limit. -/
theorem headSteps_reached (limit : Nat) : ∀ (acc : Nat) (ls : List Nat),
    headSteps limit acc ls < ls.length →
      limit ≤ acc + (ls.take (headSteps limit acc ls)).sum
  | _, [], _ => by simp_all [headSteps]
  | acc, l :: ls, h => by
    rw [headSteps] at h ⊢
    split at h
    · have := headSteps_reached limit (acc + l) ls (by simpa using h)
      split
      · simp only [List.take_succ_cons, List.sum_cons]
        omega
      · omega
    · split
      · omega
      · simp_all

theorem dedupConsecutive_sublist : ∀ l : List HistoryItem,
    List.Sublist (dedupConsecutive l) l
  | [] => by simp [dedupConsecutive]
  | [a] => by simp [dedupConsecutive]
  | a :: b :: rest => by
    rw [dedupConsecutive]
    split
    · exact (dedupConsecutive_sublist (a :: rest)).trans
        (List.Sublist.cons₂ a (List.sublist_cons_self b rest))
    · exact List.Sublist.cons₂ a (dedupConsecutive_sublist (b :: rest))
termination_by l => l.length

theorem totalChars_take (items : List HistoryItem) (j : Nat) :
    totalChars (items.take j) = ((textLens items).take j).sum := by
  simp [totalChars, textLens, List.map_take]

theorem totalChars_drop (items : List HistoryItem) (j : Nat) :
    totalChars (items.drop j) = ((textLens items).drop j).sum := by
  simp [totalChars, textLens, List.map_drop]

theorem sum_reverse_take (l : List Nat) (j : Nat) :
    (l.reverse.take j).sum = (l.drop (l.length - j)).sum := by
  have h := List.reverse_take (n := j) (l := l.reverse)
  simp only [List.reverse_reverse, List.length_reverse] at h
  calc (l.reverse.take j).sum = ((l.reverse.take j).reverse).sum := (List.sum_reverse _).symm
    _ = (l.drop (l.length - j)).sum := by rw [h]

theorem take_append_drop_sublist (items : List HistoryItem) (h m : Nat) (hle : h ≤ m) :
    List.Sublist (items.take h ++ items.drop m) items := by
  have h1 : items.take h = (items.take m).take h := by
    rw [List.take_take, Nat.min_eq_left hle]
  have h2 : List.Sublist (items.take h) (items.take m) := by
    rw [h1]; exact List.take_sublist _ _
  have h3 := List.Sublist.append h2 (List.Sublist.refl (items.drop m))
  rwa [List.take_append_drop] at h3

theorem softTrim_sublist (scl : Option Nat) (H T : Nat) (items : List HistoryItem) :
    List.Sublist (softTrim scl H T items) items := by
  rcases scl with _ | lim
  · simp only [softTrim]
    exact List.Sublist.refl _
  · simp only [softTrim]
    split
    · split
      · exact List.Sublist.refl _
      · have ht := headSteps_le_length T 0 (textLens items).reverse
        simp only [List.length_reverse, textLens, List.length_map] at ht
        apply take_append_drop_sublist
        omega
    · exact List.Sublist.refl _

theorem pySliceLast_sublist {α : Type} (n : Nat) (l : List α) :
    List.Sublist (pySliceLast n l) l := by
  unfold pySliceLast
  split
  · exact List.Sublist.refl _
  · exact List.drop_sublist _ _

theorem softTrim_sorted (scl : Option Nat) (H T : Nat) (items : List HistoryItem)
    (hs : List.Sorted histLe items) : List.Sorted histLe (softTrim scl H T items) :=
  hs.sublist (softTrim_sublist scl H T items)

theorem fetch_recent_history_sorted (limit_pairs : Nat) (persona : Option String)
    (scl : Option Nat) (H T : Nat) (ur : List UserRow) (ar : List AssistantRowDb) :
    List.Sorted histLe (fetch_recent_history limit_pairs persona scl H T ur ar) := by
  unfold fetch_recent_history
  apply softTrim_sorted
  apply List.Pairwise.sublist (dedupConsecutive_sublist _)
  apply List.Pairwise.sublist (pySliceLast_sublist _ _)
  exact List.sorted_insertionSort histLe _

/-- **C9** (counterexample): five 3-character items with `soft_char_limit = 10`,
`soft_head = 4`, `soft_tail = 2`: the trim keeps `items[:2] ++ items[4:]`, whose
head slice accumulates 6 > 4 characters (and tail slice 3 > 2) — the output is
not a concatenation of a prefix accumulating ≤ `soft_head` characters and a
suffix accumulating ≤ `soft_tail` characters. -/
theorem c9_head_slice_overshoot_counterexample :
    softTrim (some 10) 4 2 hFive = [hItem 0, hItem 1, hItem 4]
      ∧ headTailSplitClaim hFive [hItem 0, hItem 1, hItem 4] 4 2 = false :=
  ⟨rfl, by decide⟩

/-- **C10** (confirmed): a freshly started buffer satisfies
`deadline_at ≤ absolute_deadline_at` with `absolute_deadline_at = started_at +
30 s`; every append preserves the invariant; an append that extends (rather
than flushing) changes neither `started_at` nor `absolute_deadline_at` and caps
the new `deadline_at` at the absolute deadline; and any buffer reachable by a
sequence of appends satisfies the invariant. -/
theorem c10_buffer_deadline_invariant :
    (∀ now text media uid uname lang ctype,
        bufferInvariant (startBuffer now text media uid uname lang ctype))
      ∧ (∀ now text media uid uname lang ctype b, bufferInvariant b →
          bufferInvariant (bufferAppend now text media uid uname lang ctype (some b)).1)
      ∧ (∀ now text media uid uname lang ctype b,
          (bufferAppend now text media uid uname lang ctype (some b)).2 = .bufferExtended →
            (bufferAppend now text media uid uname lang ctype (some b)).1.started_at
                = b.started_at
              ∧ (bufferAppend now text media uid uname lang ctype (some b)).1.absolute_deadline_at
                  = b.absolute_deadline_at
              ∧ (bufferAppend now text media uid uname lang ctype (some b)).1.deadline_at
                  ≤ b.absolute_deadline_at)
      ∧ (∀ uid uname lang ctype events b,
          bufferRun uid uname lang ctype events = some b → bufferInvariant b) := by
  have hstart : ∀ now text media uid uname lang ctype,
      bufferInvariant (startBuffer now text media uid uname lang ctype) := by
    intro now text media uid uname lang ctype
    refine ⟨?_, rfl⟩
    show now + DEBOUNCE_INITIAL_SECONDS * usPerSecond
        ≤ now + DEBOUNCE_ABSOLUTE_MAX_SECONDS * usPerSecond
    simp only [DEBOUNCE_INITIAL_SECONDS, DEBOUNCE_ABSOLUTE_MAX_SECONDS, usPerSecond]
    omega
  have hstep : ∀ now text media uid uname lang ctype b, bufferInvariant b →
      bufferInvariant (bufferAppend now text media uid uname lang ctype (some b)).1 := by
    intro now text media uid uname lang ctype b hb
    obtain ⟨hb1, hb2⟩ := hb
    simp only [bufferAppend] at *
    split_ifs <;>
      first
        | exact hstart now text media uid uname lang ctype
        | (refine ⟨?_, hb2⟩ <;> dsimp only <;> omega)
  have hext : ∀ now text media uid uname lang ctype b,
      (bufferAppend now text media uid uname lang ctype (some b)).2 = .bufferExtended →
        (bufferAppend now text media uid uname lang ctype (some b)).1.started_at = b.started_at
          ∧ (bufferAppend now text media uid uname lang ctype (some b)).1.absolute_deadline_at
              = b.absolute_deadline_at
          ∧ (bufferAppend now text media uid uname lang ctype (some b)).1.deadline_at
              ≤ b.absolute_deadline_at := by
    intro now text media uid uname lang ctype b hb
    simp only [bufferAppend] at hb ⊢
    split_ifs at hb ⊢ <;>
      first
        | (refine ⟨rfl, rfl, ?_⟩ <;> dsimp only <;> omega)
        | simp at hb
  refine ⟨hstart, hstep, hext, ?_⟩
  intro uid uname lang ctype events
  induction events using List.reverseRecOn with
  | nil => intro b hb; simp [bufferRun] at hb
  | append_singleton es e ih =>
    intro b hb
    simp only [bufferRun, List.foldl_append, List.foldl_cons, List.foldl_nil] at hb
    rcases hfold : es.foldl (fun b e =>
        some (bufferAppend e.now e.text e.media uid uname lang ctype b).1) none with _ | b0
    · rw [hfold] at hb
      simp only [Option.some_inj] at hb
      subst hb
      simp only [bufferAppend]
      exact hstart _ _ _ _ _ _ _
    · rw [hfold] at hb
      simp only [Option.some_inj] at hb
      subst hb
      exact hstep _ _ _ _ _ _ _ _ (ih b0 hfold)

/-- Witness for C10 at S3-like concrete events. -/
theorem c10_buffer_deadline_invariant_witness :
    bufferInvariant (startBuffer 0 "hi" none none none none "private")
      ∧ bufferInvariant (bufferAppend (2 * usPerSecond) "more" none none none none "private"
          (some (startBuffer 0 "hi" none none none none "private"))).1
      ∧ ((bufferAppend (2 * usPerSecond) "more" none none none none "private"
            (some (startBuffer 0 "hi" none none none none "private"))).1.started_at
          = (startBuffer 0 "hi" none none none none "private").started_at
        ∧ (bufferAppend (2 * usPerSecond) "more" none none none none "private"
            (some (startBuffer 0 "hi" none none none none "private"))).1.absolute_deadline_at
          = (startBuffer 0 "hi" none none none none "private").absolute_deadline_at
        ∧ (bufferAppend (2 * usPerSecond) "more" none none none none "private"
            (some (startBuffer 0 "hi" none none none none "private"))).1.deadline_at
          ≤ (startBuffer 0 "hi" none none none none "private").absolute_deadline_at)
      ∧ bufferInvariant (bufferAppend (2 * usPerSecond) "more" none none none none "private"
          (some (startBuffer 0 "hi" none none none none "private"))).1 :=
  ⟨c10_buffer_deadline_invariant.1 0 "hi" none none none none "private",
   c10_buffer_deadline_invariant.2.1 (2 * usPerSecond) "more" none none none none "private"
     (startBuffer 0 "hi" none none none none "private") ⟨by decide, by decide⟩,
   c10_buffer_deadline_invariant.2.2.1 (2 * usPerSecond) "more" none none none none "private"
     (startBuffer 0 "hi" none none none none "private") (by decide),
   c10_buffer_deadline_invariant.2.2.2 none none none "private"
     [⟨0, "hi", none⟩, ⟨2 * usPerSecond, "more", none⟩]
     (bufferAppend (2 * usPerSecond) "more" none none none none "private"
       (some (startBuffer 0 "hi" none none none none "private"))).1 rfl⟩

/-- **C8** (confirmed): the anti-spam gate blocks exactly when the elapsed time
since the previous user message is under `MIN_GAP` seconds (for any positive
gap); when blocked with non-negative elapsed time the wait is `MIN_GAP` minus
the floored elapsed seconds; a null previous timestamp always passes; and a
blocked non-command turn sends exactly the warning text and returns it without
any upstream call, state change beyond `last_user_msg_at`, or persisted rows. -/
theorem c8_antispam_gate :
    (∀ prev now gap : Int, 1 ≤ gap →
        (is_allowed (some prev) now gap = false ↔ now - prev < gap * usPerSecond))
      ∧ (∀ prev now gap : Int, prev ≤ now →
          is_allowed (some prev) now gap = false →
          remaining_wait_seconds (some prev) now gap = gap - (now - prev) / usPerSecond)
      ∧ (∀ now gap : Int, is_allowed none now gap = true)
      ∧ (∀ (settings : Settings) (env : TurnEnv) (inp : TurnInput) (now : Int) (st : ChatState),
          isTurnCommand (trimmedText settings inp) = false →
          is_allowed st.last_user_msg_at now settings.user_min_seconds_between_msg = false →
          processUserText settings env inp now (some st) =
            { result := .ok ("Слишком часто, подождите ещё "
                ++ toString (remaining_wait_seconds st.last_user_msg_at now
                      settings.user_min_seconds_between_msg) ++ " c")
              state := { ensure_entities settings (some st) with last_user_msg_at := some now }
              sent := ["Слишком часто, подождите ещё "
                ++ toString (remaining_wait_seconds st.last_user_msg_at now
                      settings.user_min_seconds_between_msg) ++ " c"]
              userRows := if inp.skip_persist_user then [] else [trimmedText settings inp]
              incs := [("messages_received_total", [])] }) := by
  have htneg : ∀ d : Int, d < 0 → Int.tdiv d 1000000 ≤ 0 := by
    intro d hd
    have h1 := Int.neg_tdiv (-d) (1000000 : Int)
    simp only [neg_neg] at h1
    have h2 : Int.tdiv (-d) 1000000 ≥ 0 := Int.tdiv_nonneg (by omega) (by norm_num)
    omega
  refine ⟨?_, ?_, ?_, ?_⟩
  · intro prev now gap hgap
    simp only [is_allowed, remaining_wait_seconds, pyIntOfSeconds, usPerSecond,
      beq_eq_false_iff_ne, ne_eq]
    rcases le_or_lt 0 (now - prev) with hd | hd
    · rw [Int.tdiv_eq_ediv hd (by norm_num)]
      omega
    · have ht := htneg _ hd
      omega
  · intro prev now gap hle hblocked
    simp only [is_allowed, remaining_wait_seconds, pyIntOfSeconds, usPerSecond,
      beq_eq_false_iff_ne, ne_eq] at hblocked ⊢
    rw [Int.tdiv_eq_ediv (by omega) (by norm_num)] at hblocked ⊢
    omega
  · intro now gap
    rfl
  · intro settings env inp now st hcmd hblocked
    simp only [isTurnCommand, Bool.or_eq_false_iff] at hcmd
    obtain ⟨⟨hw, hr⟩, hs⟩ := hcmd
    have hprev : (ensure_entities settings (some st)).last_user_msg_at = st.last_user_msg_at := by
      rw [ensure_entities_some]
    simp only [processUserText, hw, hr, hs, if_false, Bool.false_eq_true, hprev, hblocked,
      Bool.not_false, if_true]

/-- Witness for C8 at scenario S2: messages 2 s apart with the default 5 s gap. -/
theorem c8_antispam_gate_witness :
    (is_allowed (some 0) (2 * usPerSecond) 5 = false ↔ 2 * usPerSecond - 0 < 5 * usPerSecond)
      ∧ remaining_wait_seconds (some 0) (2 * usPerSecond) 5
          = 5 - (2 * usPerSecond - 0) / usPerSecond
      ∧ is_allowed none 0 5 = true
      ∧ processUserText {} {} { text := "b" } (2 * usPerSecond) (some stPrev0) =
          { result := .ok ("Слишком часто, подождите ещё "
              ++ toString (remaining_wait_seconds stPrev0.last_user_msg_at (2 * usPerSecond) 5)
              ++ " c")
            state := { ensure_entities {} (some stPrev0) with
                        last_user_msg_at := some (2 * usPerSecond) }
            sent := ["Слишком часто, подождите ещё "
              ++ toString (remaining_wait_seconds stPrev0.last_user_msg_at (2 * usPerSecond) 5)
              ++ " c"]
            userRows := ["b"]
            incs := [("messages_received_total", [])] } :=
  ⟨c8_antispam_gate.1 0 (2 * usPerSecond) 5 (by decide),
   c8_antispam_gate.2.1 0 (2 * usPerSecond) 5 (by decide) (by decide),
   c8_antispam_gate.2.2.1 0 5,
   c8_antispam_gate.2.2.2 {} {} { text := "b" } (2 * usPerSecond) stPrev0
     (by decide) (by decide)⟩

/-- **C1** (confirmed): for a turn that reaches the upstream call with intent
`reply` (non-command, anti-spam passed, not sleeping, outside the quiet window,
message validation succeeded): a 5xx status raises `N8NServerError`, and the
processor records an `n8n_error_5xx` event, increments `n8n_errors_total`
(class 5xx), and re-raises, sending nothing; a 4xx status raises
`N8NClientError`, and the processor records `n8n_error_4xx`, increments the
counter, sends "Некорректный запрос" unless `bot.suppress_errors`, and returns
without raising. -/
theorem c1_reply_upstream_error_handling (settings : Settings) (env : TurnEnv)
    (inp : TurnInput) (now : Int) (st : ChatState) (m : MessageIn) (code : Int)
    (hcmd : isTurnCommand (trimmedText settings inp) = false)
    (hallow : is_allowed st.last_user_msg_at now settings.user_min_seconds_between_msg = true)
    (hsleep : sleepGateActive st.sleep_until now = false)
    (hquiet : inWindow (minuteOfDay (now + (st.timezone_offset_minutes.getD 0) * usPerMinute))
        (parseWindow settings.proactive_quiet_window) = false)
    (hval : messageInValidate (some (trimmedText settings inp)) inp.media = .ok m) :
    (500 ≤ code → code < 600 →
      call_n8n (.status code) = .error (.server code)
        ∧ (env.http = .status code →
            (processUserText settings env inp now (some st)).result = .error (.n8nServer code)
              ∧ (processUserText settings env inp now (some st)).events
                  = [{ kind := "n8n_error_5xx", intent := some "reply", status := some code }]
              ∧ (processUserText settings env inp now (some st)).incs
                  = [("messages_received_total", []),
                     ("n8n_errors_total", [("intent", "reply"), ("class", "5xx")])]
              ∧ (processUserText settings env inp now (some st)).upstream.map (·.intent)
                  = ["reply"]
              ∧ (processUserText settings env inp now (some st)).sent = []
              ∧ (processUserText settings env inp now (some st)).assistantRows = []))
    ∧ (400 ≤ code → code < 500 →
      call_n8n (.status code) = .error (.client code)
        ∧ (env.http = .status code →
            (processUserText settings env inp now (some st)).events
                = [{ kind := "n8n_error_4xx", intent := some "reply", status := some code }]
              ∧ (processUserText settings env inp now (some st)).incs
                  = [("messages_received_total", []),
                     ("n8n_errors_total", [("intent", "reply"), ("class", "4xx")])]
              ∧ (processUserText settings env inp now (some st)).upstream.map (·.intent)
                  = ["reply"]
              ∧ (env.suppress_errors = false →
                  (processUserText settings env inp now (some st)).result
                      = .ok "Некорректный запрос"
                    ∧ (processUserText settings env inp now (some st)).sent
                      = ["Некорректный запрос"])
              ∧ (env.suppress_errors = true →
                  (processUserText settings env inp now (some st)).result
                      = .ok "(n8n_error_suppressed)"
                    ∧ (processUserText settings env inp now (some st)).sent = [])
              ∧ (∃ r, (processUserText settings env inp now (some st)).result = .ok r))) := by
  rw [processUserText_reaches_main settings env inp now st hcmd hallow hsleep hquiet]
  constructor
  · intro h5 h6
    have hcls : call_n8n (.status code) = .error (.server code) := by
      simp only [call_n8n, classifyStatus, if_pos (And.intro h5 h6)]
    refine ⟨hcls, ?_⟩
    intro hhttp
    simp [processMain, hval, hhttp, hcls]
  · intro h4 h5
    have hcls : call_n8n (.status code) = .error (.client code) := by
      have hns : ¬ (500 ≤ code ∧ code < 600) := by omega
      simp only [call_n8n, classifyStatus, if_neg hns, if_pos (And.intro h4 h5)]
    refine ⟨hcls, ?_⟩
    intro hhttp
    rcases hsup : env.suppress_errors with _ | _ <;>
      simp [processMain, hval, hhttp, hcls, hsup]

/-- Witness for C1: scenario S6-style 503, and a 404, on a plain "hi" turn. -/
theorem c1_reply_upstream_error_handling_witness :
    (processUserText {} { http := .status 503 } { text := "hi" } (20 * usPerSecond)
        (some stPrev0)).result = .error (.n8nServer 503)
      ∧ (processUserText {} { http := .status 503 } { text := "hi" } (20 * usPerSecond)
          (some stPrev0)).events
          = [{ kind := "n8n_error_5xx", intent := some "reply", status := some 503 }]
      ∧ (processUserText {} { http := .status 404 } { text := "hi" } (20 * usPerSecond)
          (some stPrev0)).result = .ok "Некорректный запрос"
      ∧ (processUserText {} { http := .status 404 } { text := "hi" } (20 * usPerSecond)
          (some stPrev0)).events
          = [{ kind := "n8n_error_4xx", intent := some "reply", status := some 404 }] := by
  have h5 := (c1_reply_upstream_error_handling {} { http := .status 503 } { text := "hi" }
    (20 * usPerSecond) stPrev0 { text := some "hi" } 503 (by decide) (by decide) (by decide)
    (by decide) (by decide)).1 (by decide) (by decide)
  have h4 := (c1_reply_upstream_error_handling {} { http := .status 404 } { text := "hi" }
    (20 * usPerSecond) stPrev0 { text := some "hi" } 404 (by decide) (by decide) (by decide)
    (by decide) (by decide)).2 (by decide) (by decide)
  exact ⟨(h5.2 rfl).1, (h5.2 rfl).2.1, ((h4.2 rfl).2.2.2.1 rfl).1, (h4.2 rfl).1⟩

/-- **C7** (corrected, amended): the goodnight handling holds only for turns
that also pass the sleep gate, and the silent `"(sleep)"` return holds only for
non-command turns that pass the anti-spam gate.  Amended claim: (a) every
non-command turn that passes anti-spam while `sleep_until > now` returns
`"(sleep)"` with no send, no upstream call and no persisted row; (b) every
non-command, non-spam, non-sleeping turn whose text contains a goodnight
keyword while local time is inside the configured quiet window calls upstream
with intent `user_goodnight`, sends the reply, persists an `AssistantMessage`
with that intent, and sets `sleep_until` to the end of the quiet window
converted back to UTC (pushed to the next day when it has already passed). -/
theorem c7_goodnight_and_sleep_gate :
    (∀ (settings : Settings) (env : TurnEnv) (inp : TurnInput) (now t : Int) (st : ChatState),
        isTurnCommand (trimmedText settings inp) = false →
        is_allowed st.last_user_msg_at now settings.user_min_seconds_between_msg = true →
        st.sleep_until = some t → now < t →
        processUserText settings env inp now (some st)
          = { result := .ok "(sleep)"
              state := { ensure_entities settings (some st) with last_user_msg_at := some now }
              userRows := if inp.skip_persist_user then [] else [trimmedText settings inp]
              incs := [("messages_received_total", [])] })
    ∧ (∀ (settings : Settings) (env : TurnEnv) (inp : TurnInput) (now : Int)
          (st : ChatState) (s e : Int) (resp : N8nResponse),
        isTurnCommand (trimmedText settings inp) = false →
        is_allowed st.last_user_msg_at now settings.user_min_seconds_between_msg = true →
        sleepGateActive st.sleep_until now = false →
        parseWindow settings.proactive_quiet_window = some (s, e) →
        inWindow (minuteOfDay (now + (st.timezone_offset_minutes.getD 0) * usPerMinute))
            (some (s, e)) = true →
        hasGoodnight (trimmedText settings inp) = true →
        env.http = .ok resp →
        processUserText settings env inp now (some st)
          = { result := .ok resp.reply
              state := { ensure_entities settings (some st) with
                          last_user_msg_at := some now
                          sleep_until := some (quietWakeLocal
                            (now + (st.timezone_offset_minutes.getD 0) * usPerMinute)
                            (minuteOfDay (now + (st.timezone_offset_minutes.getD 0) * usPerMinute))
                            s e - (st.timezone_offset_minutes.getD 0) * usPerMinute)
                          last_assistant_at := some env.later }
              sent := [resp.reply]
              userRows := if inp.skip_persist_user then [] else [trimmedText settings inp]
              assistantRows := [{ text := resp.reply
                                  meta := { intent := some "user_goodnight", proactive := true
                                            persona := (ensure_entities settings (some st)).persona_key } }]
              incs := [("messages_received_total", [])]
              upstream := [{ intent := "user_goodnight"
                             persona := (ensure_entities settings (some st)).persona_key
                             memory_rev := some st.memory_rev, history_len := 0
                             message := some { text := some (trimmedText settings inp) } }] }) := by
  constructor
  · intro settings env inp now t st hcmd hallow hs ht
    simp only [isTurnCommand, Bool.or_eq_false_iff] at hcmd
    obtain ⟨⟨hw, hr⟩, hsx⟩ := hcmd
    have hens := ensure_entities_some settings st
    have hgate : sleepGateActive st.sleep_until now = true := by
      simp [sleepGateActive, hs, ht]
    simp only [processUserText, hw, hr, hsx, Bool.false_eq_true, if_false, hens, hallow,
      Bool.not_true, hgate, if_true]
  · intro settings env inp now st s e resp hcmd hallow hsleep hpw hwind hgn hok
    simp only [isTurnCommand, Bool.or_eq_false_iff] at hcmd
    obtain ⟨⟨hw, hr⟩, hsx⟩ := hcmd
    have hens := ensure_entities_some settings st
    simp only [processUserText, hw, hr, hsx, Bool.false_eq_true, if_false, hens, hallow,
      Bool.not_true, hsleep, hpw, hwind, hgn, Bool.and_self, if_true, hok, call_n8n]

/-- Witness for C7 at scenario S4 (quiet window `00:30-07:00`, tz +180, local
01:10, text "споки"; and the sleep gate for a later "?" while sleeping). -/
theorem c7_goodnight_and_sleep_gate_witness :
    processUserText quietSettings envQuiet { text := "?" } quietNow (some stQuietSleeping)
        = { result := .ok "(sleep)"
            state := { ensure_entities quietSettings (some stQuietSleeping) with
                        last_user_msg_at := some quietNow }
            userRows := ["?"]
            incs := [("messages_received_total", [])] }
      ∧ processUserText quietSettings envQuiet { text := "споки" } quietNow (some stQuiet)
        = { result := .ok "споки, солнце"
            state := { ensure_entities quietSettings (some stQuiet) with
                        last_user_msg_at := some quietNow
                        sleep_until := some (quietWakeLocal (quietNow + 180 * usPerMinute)
                          (minuteOfDay (quietNow + 180 * usPerMinute)) 30 420
                          - 180 * usPerMinute)
                        last_assistant_at := some envQuiet.later }
            sent := ["споки, солнце"]
            userRows := ["споки"]
            assistantRows := [{ text := "споки, солнце"
                                meta := { intent := some "user_goodnight", proactive := true
                                          persona := some "nika" } }]
            incs := [("messages_received_total", [])]
            upstream := [{ intent := "user_goodnight", persona := some "nika"
                           memory_rev := some 1, history_len := 0
                           message := some { text := some "споки" } }] } := by
  constructor
  · exact c7_goodnight_and_sleep_gate.1 quietSettings envQuiet { text := "?" } quietNow
      (2 * usPerDay) stQuietSleeping (by decide) (by decide) rfl (by decide)
  · have h := c7_goodnight_and_sleep_gate.2 quietSettings envQuiet { text := "споки" }
      quietNow stQuiet 30 420 { reply := "споки, солнце" } (by decide) (by decide)
      (by decide) (by decide) (by decide) (by decide) rfl
    simpa using h

/-- **C3** (corrected, amended): in every sweep execution that selects
`proactive_morning` / `proactive_evening` / `proactive_reengage` (lock held,
upstream call succeeded, morning guard passed), the trace is exactly: the
upstream workflow call first, then the `last_*_sent_at` stamp and a DB flush,
then the delivery (outbox append, or send+persist when the transport send
succeeds), then the final flush and commit — i.e. the stamp-and-flush precedes
the *delivery*, while the upstream call *precedes* the stamping; and the
stamped field is set to `now`. -/
theorem c3_stamp_before_delivery (settings : Settings) (env : ProactiveEnv)
    (now_utc : Int) (st : ChatState) (intent : String) (trim : Bool) (resp : N8nResponse)
    (hskip : sweepSkips settings now_utc st = false)
    (hsel : selectIntent settings now_utc st = some (intent, trim))
    (hint : intent = "proactive_morning" ∨ intent = "proactive_evening"
      ∨ intent = "proactive_reengage")
    (hlock : env.lockOk = true)
    (hn8n : env.n8n = .ok resp)
    (hguard : ¬ (intent = "proactive_morning" ∧ 1 ≤ env.morningRecentCount)) :
    (proactiveChat settings env now_utc st).1
      = [.upstreamCall intent, .stamp ((stampField intent).getD ""), .dbFlush]
        ++ (if st.proactive_via_userbot then [.outbox intent]
            else if env.sendOk then [.send resp.reply, .persist resp.reply] else [])
        ++ [.dbFlush, .commitTx]
    ∧ (intent = "proactive_morning" →
        (proactiveChat settings env now_utc st).2.last_morning_sent_at = some now_utc)
    ∧ (intent = "proactive_evening" →
        (proactiveChat settings env now_utc st).2.last_goodnight_sent_at = some now_utc)
    ∧ (intent = "proactive_reengage" →
        (proactiveChat settings env now_utc st).2.last_reengage_sent_at = some now_utc) := by
  rcases hint with h | h | h <;> subst h
  · have hg : ¬ (1 ≤ env.morningRecentCount) := fun hc => hguard ⟨rfl, hc⟩
    rcases hvu : st.proactive_via_userbot with _ | _ <;>
      rcases hsend : env.sendOk with _ | _ <;>
        simp [proactiveChat, hskip, hsel, hlock, hn8n, hvu, hsend, stampField, hg]
  · rcases hvu : st.proactive_via_userbot with _ | _ <;>
      rcases hsend : env.sendOk with _ | _ <;>
        simp [proactiveChat, hskip, hsel, hlock, hn8n, hvu, hsend, stampField]
  · rcases hvu : st.proactive_via_userbot with _ | _ <;>
      rcases hsend : env.sendOk with _ | _ <;>
        simp [proactiveChat, hskip, hsel, hlock, hn8n, hvu, hsend, stampField]

/-- Witness for C3 at the concrete morning sweep of scenario S5. -/
theorem c3_stamp_before_delivery_witness :
    (proactiveChat morningSettings envMorning ((7 * 60 + 30) * usPerMinute) stMorning).1
        = [.upstreamCall "proactive_morning", .stamp "last_morning_sent_at", .dbFlush]
          ++ [.send "доброе утро", .persist "доброе утро"] ++ [.dbFlush, .commitTx]
      ∧ (proactiveChat morningSettings envMorning
          ((7 * 60 + 30) * usPerMinute) stMorning).2.last_morning_sent_at
          = some ((7 * 60 + 30) * usPerMinute) := by
  have h := c3_stamp_before_delivery morningSettings envMorning ((7 * 60 + 30) * usPerMinute)
    stMorning "proactive_morning" true { reply := "доброе утро" } (by decide) (by decide)
    (Or.inl rfl) rfl rfl (by decide)
  refine ⟨?_, h.2.1 rfl⟩
  simpa using h.1

/-- **C9** (corrected, amended): when the merged, deduplicated list exceeds
`soft_char_limit` with more than 2 items, the returned list is `take h ++ drop
(n - t)` where `h` (resp. `t`) counts the shortest prefix (resp. suffix) whose
accumulated character count *reaches* `soft_head` (resp. `soft_tail`) — each
slice may overshoot its budget by its final item, so the slices accumulate
"< budget before their last item" rather than "≤ budget" as claimed; when the
two slices would overlap the list is returned unchanged; and the output of
`fetch_recent_history` is always ascending by creation time. -/
theorem c9_soft_trim_amended :
    (∀ (L H T : Nat) (items : List HistoryItem),
      0 < L → L < totalChars items → 2 < items.length →
      ((items.length : Int) - 1 - (headSteps T 0 (textLens items).reverse : Int)
          < (headSteps H 0 (textLens items) : Int) →
        softTrim (some L) H T items = items)
      ∧ (¬ ((items.length : Int) - 1 - (headSteps T 0 (textLens items).reverse : Int)
          < (headSteps H 0 (textLens items) : Int)) →
        softTrim (some L) H T items
            = items.take (headSteps H 0 (textLens items))
              ++ items.drop (items.length - headSteps T 0 (textLens items).reverse)
          ∧ (∀ j < headSteps H 0 (textLens items), totalChars (items.take j) < H)
          ∧ (headSteps H 0 (textLens items) < items.length →
              H ≤ totalChars (items.take (headSteps H 0 (textLens items))))
          ∧ (∀ j < headSteps T 0 (textLens items).reverse,
              totalChars (items.drop (items.length - j)) < T)
          ∧ (headSteps T 0 (textLens items).reverse < items.length →
              T ≤ totalChars (items.drop
                (items.length - headSteps T 0 (textLens items).reverse)))))
    ∧ (∀ (scl : Option Nat) (H T : Nat) (items : List HistoryItem),
        List.Sorted histLe items → List.Sorted histLe (softTrim scl H T items))
    ∧ (∀ (limit_pairs : Nat) (persona : Option String) (scl : Option Nat) (H T : Nat)
          (ur : List UserRow) (ar : List AssistantRowDb),
        List.Sorted histLe (fetch_recent_history limit_pairs persona scl H T ur ar)) := by
  refine ⟨?_, softTrim_sorted, fetch_recent_history_sorted⟩
  intro L H T items h0 h1 h2
  have hlen : (textLens items).length = items.length := by simp [textLens]
  have hcond : 0 < L ∧ L < totalChars items ∧ 2 < items.length := ⟨h0, h1, h2⟩
  constructor
  · intro hover
    simp only [softTrim]
    rw [if_pos hcond]
    rw [if_pos hover]
  · intro hover
    refine ⟨?_, ?_, ?_, ?_, ?_⟩
    · simp only [softTrim]
      rw [if_pos hcond]
      rw [if_neg hover]
    · intro j hj
      rw [totalChars_take]
      have := headSteps_prefix_lt H 0 (textLens items) j hj
      simpa using this
    · intro hlt
      rw [totalChars_take]
      have := headSteps_reached H 0 (textLens items) (by omega)
      simpa using this
    · intro j hj
      rw [totalChars_drop]
      have hp := headSteps_prefix_lt T 0 (textLens items).reverse j hj
      have hs := sum_reverse_take (textLens items) j
      rw [hlen] at hs
      simp only [Nat.zero_add] at hp
      omega
    · intro hlt
      rw [totalChars_drop]
      have hr := headSteps_reached T 0 (textLens items).reverse
        (by simpa [hlen] using hlt)
      have hs := sum_reverse_take (textLens items) (headSteps T 0 (textLens items).reverse)
      rw [hlen] at hs
      simp only [Nat.zero_add] at hr
      omega

/-- Witness for C9 at the five-item example (head budget 4, tail budget 2). -/
theorem c9_soft_trim_amended_witness :
    softTrim (some 10) 4 2 hFive
        = hFive.take (headSteps 4 0 (textLens hFive))
          ++ hFive.drop (hFive.length - headSteps 2 0 (textLens hFive).reverse)
      ∧ (headSteps 4 0 (textLens hFive) < hFive.length →
          4 ≤ totalChars (hFive.take (headSteps 4 0 (textLens hFive))))
      ∧ List.Sorted histLe (softTrim (some 10) 4 2 hFive) := by
  have h := (c9_soft_trim_amended.1 10 4 2 hFive (by decide) (by decide) (by decide)).2
    (by decide)
  exact ⟨h.1, h.2.2.1, c9_soft_trim_amended.2.1 (some 10) 4 2 hFive (by decide)⟩

end Girlbot
